import Mathlib

/-
Verification of the omniGuard monitoring and alert-dispatch engine.

This file shallowly embeds the relevant parts of the three Python sources
(consumer.py, server.py, qwen3.py) and proves properties about them.

Modelling conventions:
* Python floats are modelled as exact rationals (ℚ).  NaN and infinities are
  outside the model; every numeric value read from JSON is a rational.
* Python values decoded from JSON are modelled by the inductive type `PyVal`.
* External library calls (`requests.post`, `json.loads`, `time.time`,
  `random.random`, camera capture) are modelled as oracle parameters: the
  embedded function is quantified over every possible outcome of the call.
* Python exceptions are modelled with `Except PyExc`; a `try/except` block
  becomes a `match` on the `Except` value.  A function whose body is wrapped
  in a catch-all `except` is therefore total in the embedding, and the
  catch equation is proved as a theorem.
* Character classes of the `re` module (`\s`, `\d`) are modelled over their
  ASCII portion, which covers all inputs exercised here.
-/

set_option linter.unusedVariables false

/-- A Python exception, reduced to its message. -/
structure PyExc where
  msg : String
deriving DecidableEq

/-- A Python value as produced by `json.loads`: number, string, boolean,
`None`, dict (association list of string keys) or list. -/
inductive PyVal where
  | num (q : ℚ)
  | str (s : String)
  | bool (b : Bool)
  | none
  | dict (fields : List (String × PyVal))
  | arr (elems : List PyVal)

/-- Whether a `PyVal` is a Python `str`. -/
def isStr : PyVal → Bool
  | PyVal.str _ => true
  | _ => false

/-- Python truthiness of a value. -/
def pyTruthy : PyVal → Bool
  | PyVal.num q => decide (q ≠ 0)
  | PyVal.str s => decide (s ≠ "")
  | PyVal.bool b => b
  | PyVal.none => false
  | PyVal.dict fs => !fs.isEmpty
  | PyVal.arr xs => !xs.isEmpty

/-- ASCII decimal digit test; models `\d` of the `re` module and the digit
characters accepted by `float()` on the strings arising here. -/
def isDigitC (c : Char) : Bool :=
  48 ≤ c.toNat && c.toNat ≤ 57

/-- ASCII whitespace test; models `\s` of the `re` module and the characters
removed by `str.strip()`. -/
def isSpaceC (c : Char) : Bool :=
  c.toNat = 32 || c.toNat = 9 || c.toNat = 10 || c.toNat = 13 ||
    c.toNat = 11 || c.toNat = 12

/-- The `\x7b` character (opening curly bracket). -/
def lbrace : Char := Char.ofNat 123

/-- The `\x7d` character (closing curly bracket). -/
def rbrace : Char := Char.ofNat 125

/-- Numeric value of an ASCII digit character. -/
def digitVal (c : Char) : ℕ := c.toNat - 48

/-- Value of a list of ASCII digit characters read in base 10. -/
def digitsToNat (ds : List Char) : ℕ :=
  List.foldl (fun a c => 10 * a + digitVal c) 0 ds

/-- `str.strip()` on a character list (ASCII whitespace). -/
def pyStrip (cs : List Char) : List Char :=
  ((cs.dropWhile isSpaceC).reverse.dropWhile isSpaceC).reverse

/-- Python `float()` applied to an unsigned decimal numeral `digits` or
`digits.digits` (this covers every string `float()` receives in the
sources); `Option.none` models a `ValueError`. -/
def parseDecQ (cs : List Char) : Option ℚ :=
  let intPart := cs.takeWhile isDigitC
  match cs.dropWhile isDigitC with
  | [] => if intPart.isEmpty then Option.none
          else Option.some ((digitsToNat intPart : ℚ))
  | '.' :: frac =>
      if frac.all isDigitC && !(intPart.isEmpty && frac.isEmpty) then
        Option.some ((digitsToNat intPart : ℚ) +
          (digitsToNat frac : ℚ) / ((10 ^ frac.length : ℕ) : ℚ))
      else Option.none
  | _ => Option.none

/-- Python `float()` on a `PyVal`; errors model `TypeError`/`ValueError`. -/
def pyFloat : PyVal → Except PyExc ℚ
  | PyVal.num q => Except.ok q
  | PyVal.bool b => Except.ok (if b then 1 else 0)
  | PyVal.str s =>
      match parseDecQ (pyStrip s.data) with
      | Option.some q => Except.ok q
      | Option.none => Except.error ⟨"ValueError"⟩
  | _ => Except.error ⟨"TypeError"⟩

/-- Python `str()` on a `PyVal`.  Only the `str` case is relied upon by any
theorem; containers get an abstract rendering. -/
def pyStr : PyVal → String
  | PyVal.str s => s
  | PyVal.num q => toString q
  | PyVal.bool b => if b then "True" else "False"
  | PyVal.none => "None"
  | PyVal.dict _ => "<dict>"
  | PyVal.arr _ => "<list>"

/-- First `n` characters of a string: models the slice `s[:n]`. -/
def strTake (s : String) (n : ℕ) : String :=
  ⟨s.data.take n⟩

/- =====================  Risk Extractor (qwen3.py)  =====================

RISK_REGEX = re.compile(r"RISK\s*=\s*(0(?:\.\d+)?|1(?:\.0+)?)", re.IGNORECASE)

The regex is modelled directly: `matchNum` is the capture group
`(0(?:\.\d+)?|1(?:\.0+)?)` with its greedy optional fraction, `matchRiskAt`
anchors the whole pattern at the head of a character list, and `riskSearch`
is `re.search`: the leftmost position where the pattern matches.
-/

/-- The capture group `(0(?:\.\d+)?|1(?:\.0+)?)` matched greedily at the head
of `cs`; returns the captured characters.  The optional fraction is greedy
but backtracks to nothing when it cannot complete, exactly as the regex
engine does. -/
def matchNum : List Char → Option (List Char)
  | [] => Option.none
  | c :: rest =>
      if c = '0' then
        if rest.head? = Option.some '.' then
          let ds := rest.tail.takeWhile isDigitC
          if ds.isEmpty then Option.some ['0'] else Option.some ('0' :: '.' :: ds)
        else Option.some ['0']
      else if c = '1' then
        if rest.head? = Option.some '.' then
          let zs := rest.tail.takeWhile (fun c => c = '0')
          if zs.isEmpty then Option.some ['1'] else Option.some ('1' :: '.' :: zs)
        else Option.some ['1']
      else Option.none

/-- The full pattern `RISK\s*=\s*(...)` (case-insensitive) anchored at the
head of `cs`; returns the capture of the numeric group. -/
def matchRiskAt (cs : List Char) : Option (List Char) :=
  match cs with
  | c1 :: c2 :: c3 :: c4 :: rest =>
      if c1.toLower = 'r' && c2.toLower = 'i' && c3.toLower = 's' && c4.toLower = 'k' then
        match rest.dropWhile isSpaceC with
        | '=' :: rest2 => matchNum (rest2.dropWhile isSpaceC)
        | _ => Option.none
      else Option.none
  | _ => Option.none

/-- `RISK_REGEX.search`: the capture of the leftmost match, if any. -/
def riskSearch : List Char → Option (List Char)
  | [] => Option.none
  | c :: cs =>
      match matchRiskAt (c :: cs) with
      | Option.some cap => Option.some cap
      | Option.none => riskSearch cs

/-- qwen3.py `extraer_riesgo`: `None` on falsy text, else search the marker,
`float()` the capture and keep it only when it lies in `[0,1]`. -/
def extraer_riesgo (texto : String) : Option ℚ :=
  if texto = "" then Option.none
  else
    match riskSearch texto.data with
    | Option.none => Option.none
    | Option.some cap =>
        match parseDecQ cap with
        | Option.none => Option.none
        | Option.some val =>
            if 0 ≤ val ∧ val ≤ 1 then Option.some val else Option.none

/- =====================  Inference Client (consumer.py)  =====================

`with_retries(request_fn, max_attempts=3, base_delay=1.0, max_delay=30.0)`.
The `request_fn` is modelled as an oracle `ℕ → ReqOutcome` giving the outcome
of the k-th call (k counted from 1): either a raised
`requests.RequestException` (with the optional `status_code` of an attached
response, and whether it is a `requests.Timeout`) or a returned response.
`random.random()` is the oracle `rnd : ℕ → ℚ`.
-/

/-- Observable parts of a `requests` response used by the sources:
the outcome of `r.json()` (`Option.none` models a decode error), the
`Content-Type` header, and `r.text`. -/
structure RespBody where
  json : Option PyVal
  ctype : String
  text : String

/-- Outcome of one `requests.post`-style call: a raised `RequestException`
or a returned response. -/
inductive ReqOutcome where
  | exc (isTimeout : Bool) (status : Option ℕ) (msg : String)
  | resp (status : ℕ) (body : RespBody)

/-- Result of `with_retries`: the returned response, or the re-raised
exception. -/
inductive RetryRes where
  | ok (status : ℕ) (body : RespBody)
  | raised (isTimeout : Bool) (status : Option ℕ) (msg : String)

/-- consumer.py line 68: a failure is retriable when it is a timeout or the
attached status is 429/500/502/503/504. -/
def retriable (isTimeout : Bool) (status : Option ℕ) : Bool :=
  isTimeout ||
    (status = Option.some 429 || status = Option.some 500 ||
     status = Option.some 502 || status = Option.some 503 ||
     status = Option.some 504)

/-- consumer.py lines 72-75: the backoff delay before jitter, with the base
delay doubled for HTTP 429 inside the clamp. -/
def preJitterDelay (status : Option ℕ) (attempt : ℕ) (base maxd : ℚ) : ℚ :=
  if status = Option.some 429 then min maxd (base * 2 ^ (attempt - 1) * 2)
  else min maxd (base * 2 ^ (attempt - 1))

/-- consumer.py line 76: `sleep_s = sleep_s * (0.5 + random.random())`,
where `r` is the sampled value of `random.random()`. -/
def backoffSleep (status : Option ℕ) (attempt : ℕ) (base maxd r : ℚ) : ℚ :=
  preJitterDelay status attempt base maxd * (1 / 2 + r)

/-- The `while True` loop of `with_retries`.  `failures` is the Python
`attempt` variable (failures so far); `fuel` is `maxAttempts - failures`,
strictly positive on every reachable call, so the `0` case is dead code.
Returns the result, the number of calls issued, and the sleeps performed. -/
def with_retries_go (oracle : ℕ → ReqOutcome) (rnd : ℕ → ℚ)
    (maxAttempts : ℕ) (base maxd : ℚ) : ℕ → ℕ → RetryRes × ℕ × List ℚ
  | _, 0 => (RetryRes.raised false Option.none "unreachable", 0, [])
  | failures, fuel + 1 =>
      match oracle (failures + 1) with
      | ReqOutcome.resp st body => (RetryRes.ok st body, 1, [])
      | ReqOutcome.exc isT st msg =>
          let failures1 := failures + 1
          if maxAttempts ≤ failures1 || !retriable isT st then
            (RetryRes.raised isT st msg, 1, [])
          else
            let s := backoffSleep st failures1 base maxd (rnd failures1)
            let r := with_retries_go oracle rnd maxAttempts base maxd failures1 fuel
            (r.1, r.2.1 + 1, s :: r.2.2)

/-- consumer.py `with_retries` with explicit outcome and jitter oracles. -/
def with_retries (oracle : ℕ → ReqOutcome) (rnd : ℕ → ℚ)
    (maxAttempts : ℕ) (base maxd : ℚ) : RetryRes × ℕ × List ℚ :=
  with_retries_go oracle rnd maxAttempts base maxd 0 maxAttempts

/-- Python `d[k]` subscript on a `PyVal`. -/
def pySubscript : PyVal → String → Except PyExc PyVal
  | PyVal.dict fs, k =>
      match fs.lookup k with
      | Option.some v => Except.ok v
      | Option.none => Except.error ⟨"KeyError"⟩
  | _, _ => Except.error ⟨"TypeError"⟩

/-- Python `xs[i]` subscript with a numeric index on a `PyVal`. -/
def pyIndexNat : PyVal → ℕ → Except PyExc PyVal
  | PyVal.arr xs, i =>
      match xs.get? i with
      | Option.some v => Except.ok v
      | Option.none => Except.error ⟨"IndexError"⟩
  | _, _ => Except.error ⟨"TypeError"⟩

/-- `data["choices"][0]["message"]["content"]` as both sources extract it. -/
def extractContent (data : PyVal) : Except PyExc PyVal := do
  let c ← pySubscript data "choices"
  let c0 ← pyIndexNat c 0
  let m ← pySubscript c0 "message"
  pySubscript m "content"

/-- `.strip()` requires a `str` receiver; anything else raises. -/
def pyStrVal : PyVal → Except PyExc (List Char)
  | PyVal.str s => Except.ok s.data
  | _ => Except.error ⟨"AttributeError"⟩

/-- consumer.py lines 145-149: wrap the content in curly brackets where they
are missing, checking the front first and the (possibly extended) back
second. -/
def braceFix (cs : List Char) : List Char :=
  let cs1 := if cs.head? = Option.some lbrace then cs else lbrace :: cs
  if cs1.getLast? = Option.some rbrace then cs1 else cs1 ++ [rbrace]

/-- consumer.py `ScoreResult` as returned by `analyze`: score plus narrative
text, the text always passed through `str()`. -/
structure ScoreResult where
  score : ℚ
  text : String
deriving DecidableEq

/-- The body of consumer.py `analyze` inside its outer `try` (lines 130-158):
retries, `raise_for_status`, content extraction, two-stage JSON decode,
score coercion.  `Except.error` is an exception reaching the outer handler;
`loads` is the `json.loads` oracle. -/
def consumer_analyze_body (loads : List Char → Option PyVal)
    (oracle : ℕ → ReqOutcome) (rnd : ℕ → ℚ) : Except PyExc ScoreResult :=
  match (with_retries oracle rnd 3 1 30).1 with
  | RetryRes.raised _ _ msg => Except.error ⟨msg⟩
  | RetryRes.ok st body =>
      if 400 ≤ st then Except.error ⟨"HTTPError " ++ toString st⟩
      else
        match body.json with
        | Option.none => Except.error ⟨"JSONDecodeError"⟩
        | Option.some data => do
            let cv ← extractContent data
            let cs ← pyStrVal cv
            let content := pyStrip cs
            let parsedO :=
              match loads content with
              | Option.some p => Option.some p
              | Option.none => loads (braceFix content)
            match parsedO with
            | Option.none => Except.ok ⟨0, "Respuesta del analizador no válida"⟩
            | Option.some parsed =>
                match parsed with
                | PyVal.dict fs =>
                    match pyFloat ((fs.lookup "score").getD (PyVal.num 0)) with
                    | Except.error e => Except.error e
                    | Except.ok s =>
                        Except.ok ⟨s, pyStr ((fs.lookup "text").getD (PyVal.str ""))⟩
                | _ => Except.error ⟨"AttributeError"⟩

/-- consumer.py `analyze` (lines 107-161): empty-window shortcut, then the
body with the catch-all `except` degrading to `score 0` and a diagnostic. -/
def analyze (loads : List Char → Option PyVal) (nowIso : String)
    (events : List PyVal) (oracle : ℕ → ReqOutcome) (rnd : ℕ → ℚ) : ScoreResult :=
  if events.isEmpty then ⟨0, "Sin eventos recientes. " ++ nowIso⟩
  else
    match consumer_analyze_body loads oracle rnd with
    | Except.ok r => r
    | Except.error e => ⟨0, "Error analizando: " ++ e.msg⟩

/- =====================  Inference Client (server.py)  ===================== -/

/-- server.py result dict: unlike consumer.py, the `text` field is whatever
truthy value `parsed.get("text") or parsed.get("mensaje") or "Sin resumen"`
produced, so it is a `PyVal`, not necessarily a string. -/
structure ServerScoreResult where
  score : ℚ
  text : PyVal

/-- server.py regex recovery: `re.search(r"\x7b.*\x7d", content, re.DOTALL)`,
greedy, so the match runs from the first opening to the last closing curly
bracket when that span is non-degenerate. -/
def jsonBlock? (cs : List Char) : Option (List Char) :=
  match cs.findIdx? (fun c => c = lbrace) with
  | Option.none => Option.none
  | Option.some i =>
      let tail := cs.drop i
      match tail.reverse.findIdx? (fun c => c = rbrace) with
      | Option.none => Option.none
      | Option.some j =>
          if 2 ≤ tail.length - j then Option.some (tail.take (tail.length - j))
          else Option.none

/-- server.py lines 146-150: score coercion, the `or`-chain for the text and
the two-sided clamp.  Raises (to the outer handler) when `parsed` is not a
dict or the score does not coerce. -/
def serverNormalize : PyVal → Except PyExc ServerScoreResult
  | PyVal.dict fs =>
      match pyFloat ((fs.lookup "score").getD (PyVal.num 0)) with
      | Except.error e => Except.error e
      | Except.ok s0 =>
          let tv1 := (fs.lookup "text").getD PyVal.none
          let tv2 := (fs.lookup "mensaje").getD PyVal.none
          let text := if pyTruthy tv1 then tv1
                      else if pyTruthy tv2 then tv2
                      else PyVal.str "Sin resumen"
          let s1 := if s0 < 0 then 0 else s0
          let s2 := if 1 < s1 then 1 else s1
          Except.ok ⟨s2, text⟩
  | _ => Except.error ⟨"AttributeError"⟩

/-- The body of server.py `openai_analyze` inside its outer `try`
(lines 114-150).  Non-200 statuses and unparseable content return degraded
results; only genuinely uncaught Python exceptions become `Except.error`. -/
def openai_analyze_body (loads : List Char → Option PyVal)
    (outcome : ReqOutcome) : Except PyExc ServerScoreResult :=
  match outcome with
  | ReqOutcome.exc _ _ msg => Except.error ⟨msg⟩
  | ReqOutcome.resp st body =>
      if st ≠ 200 then
        Except.ok ⟨0, PyVal.str ("OpenAI " ++ toString st ++ ": " ++ strTake body.text 800)⟩
      else
        match body.json with
        | Option.none => Except.error ⟨"JSONDecodeError"⟩
        | Option.some data =>
            match extractContent data with
            | Except.error _ =>
                Except.ok ⟨0, PyVal.str ("Respuesta inesperada: " ++ strTake (pyStr data) 400)⟩
            | Except.ok cv =>
                match cv with
                | PyVal.str s =>
                    (match loads s.data with
                     | Option.some parsed => serverNormalize parsed
                     | Option.none =>
                         match jsonBlock? s.data with
                         | Option.none =>
                             Except.ok ⟨0, PyVal.str ("No vino JSON válido. Raw: " ++ strTake s 200)⟩
                         | Option.some blk =>
                             match loads blk with
                             | Option.some parsed => serverNormalize parsed
                             | Option.none =>
                                 Except.ok ⟨0, PyVal.str ("No pude parsear JSON. Raw: " ++ strTake s 200)⟩)
                | _ => Except.error ⟨"TypeError"⟩

/-- server.py `openai_analyze` (lines 91-153): the body with its catch-all
`except` degrading to `score 0` and a diagnostic. -/
def openai_analyze (loads : List Char → Option PyVal)
    (outcome : ReqOutcome) : ServerScoreResult :=
  match openai_analyze_body loads outcome with
  | Except.ok r => r
  | Except.error e => ⟨0, PyVal.str ("Error analizando: " ++ e.msg)⟩

/- =====================  Notification Fanout (consumer.py)  ===================== -/

/-- Events observable from the alert-dispatch branch of consumer.py `main`
(lines 224-229) and the two channel functions. -/
inductive ChEvent where
  | tgRequest
  | tgWarnStatus (st : ℕ)
  | tgError (msg : String)
  | ttsRequest
  | ttsCtypeWarn
  | ttsWriteFile
  | ttsPlay
  | ttsError (msg : String)
  | sleep10
deriving DecidableEq

/-- Naive substring test, models Python `needle in haystack`. -/
def containsSub (needle : List Char) : List Char → Bool
  | [] => needle.isEmpty
  | c :: cs => needle.isPrefixOf (c :: cs) || containsSub needle cs

/-- Outcome of the local audio playback in `speak_text`: `afplay` present,
`afplay` missing but `mpg123` present, or both missing (the second
`FileNotFoundError` escapes to the catch-all handler). -/
inductive PlayOutcome where
  | afplay
  | mpg123
  | neither
deriving DecidableEq

/-- consumer.py `send_telegram` (lines 163-175): skip when disabled, send via
`with_retries`, warn on a non-ok status, catch every exception and log it. -/
def send_telegram (enabled : Bool) (oracle : ℕ → ReqOutcome) (rnd : ℕ → ℚ) : List ChEvent :=
  if !enabled then []
  else
    ChEvent.tgRequest ::
      (match (with_retries oracle rnd 3 1 30).1 with
       | RetryRes.raised _ _ msg => [ChEvent.tgError msg]
       | RetryRes.ok st _ => if st < 400 then [] else [ChEvent.tgWarnStatus st])

/-- consumer.py `speak_text` (lines 177-198): skip when disabled, request the
audio via `with_retries`, `raise_for_status`, warn (without aborting) on a
non-audio content type, write the file, play it with a fallback player,
catch every exception and log it. -/
def speak_text (enabled : Bool) (oracle : ℕ → ReqOutcome) (rnd : ℕ → ℚ)
    (play : PlayOutcome) : List ChEvent :=
  if !enabled then []
  else
    ChEvent.ttsRequest ::
      (match (with_retries oracle rnd 3 1 30).1 with
       | RetryRes.raised _ _ msg => [ChEvent.ttsError msg]
       | RetryRes.ok st body =>
           if 400 ≤ st then [ChEvent.ttsError ("HTTPError " ++ toString st)]
           else
             (if containsSub "audio".data body.ctype.data then [] else [ChEvent.ttsCtypeWarn]) ++
               [ChEvent.ttsWriteFile] ++
               (match play with
                | PlayOutcome.afplay => [ChEvent.ttsPlay]
                | PlayOutcome.mpg123 => [ChEvent.ttsPlay]
                | PlayOutcome.neither => [ChEvent.ttsError "FileNotFoundError"]))

/-- The alert branch of consumer.py `main` (lines 224-229): Telegram, speech,
a 10 s pause, speech again, strictly in that order. -/
def alertFanout (tgEn ttsEn : Bool) (tgO : ℕ → ReqOutcome) (tgR : ℕ → ℚ)
    (t1O : ℕ → ReqOutcome) (t1R : ℕ → ℚ) (p1 : PlayOutcome)
    (t2O : ℕ → ReqOutcome) (t2R : ℕ → ℚ) (p2 : PlayOutcome) : List ChEvent :=
  send_telegram tgEn tgO tgR ++ speak_text ttsEn t1O t1R p1 ++
    [ChEvent.sleep10] ++ speak_text ttsEn t2O t2R p2

/- =====================  qwen3.py: LLM call and main loop  ===================== -/

/-- Outcome of one attempt inside qwen3.py `analizar_imagen`: a raised
`requests` exception (timeout or connection error, both handled alike)
or a response with its status and message content. -/
inductive LlmAttempt where
  | exc (msg : String)
  | resp (status : ℕ) (content : String)

/-- The retry loop of `analizar_imagen` (lines 80-94): every non-200 outcome,
exception or HTTP error alike, is logged, slept on for a fixed 2 s and
retried; after `MAX_RETRIES` attempts the function returns `None`.
`attempt` is the 1-based attempt index, `fuel` the attempts remaining.
Returns the content (if any) and the number of requests issued. -/
def analizar_imagen_go (oracle : ℕ → LlmAttempt) : ℕ → ℕ → Option String × ℕ
  | _, 0 => (Option.none, 0)
  | attempt, fuel + 1 =>
      match oracle attempt with
      | LlmAttempt.resp st content =>
          if st = 200 then (Option.some content, 1)
          else
            let r := analizar_imagen_go oracle (attempt + 1) fuel
            (r.1, r.2 + 1)
      | LlmAttempt.exc _ =>
          let r := analizar_imagen_go oracle (attempt + 1) fuel
          (r.1, r.2 + 1)

/-- qwen3.py `analizar_imagen` with its request oracle. -/
def analizar_imagen (oracle : ℕ → LlmAttempt) (maxRetries : ℕ) : Option String × ℕ :=
  analizar_imagen_go oracle 1 maxRetries

/-- Whether an attempt outcome is anything other than an HTTP 200 response
(`analizar_imagen` retries exactly these). -/
def llmFails : LlmAttempt → Bool
  | LlmAttempt.resp 200 _ => false
  | _ => true

/-- qwen3.py line 200, the alert-gate condition:
`riesgo is not None and riesgo >= RISK_THRESHOLD and (now - ultimo_envio_ts) >= INTERVAL`. -/
def alertGate (riesgo : Option ℚ) (threshold now last interval : ℚ) : Bool :=
  match riesgo with
  | Option.none => false
  | Option.some v => decide (threshold ≤ v) && decide (interval ≤ now - last)

/-- Cross-cycle state of qwen3.py `main` (lines 157-160). -/
structure QState where
  failCount : ℕ
  internetFailures : ℕ
  ultimoEnvioTs : ℚ
  startTime : ℚ
deriving DecidableEq

/-- External inputs consumed by one loop iteration: the clock at the top of
the loop (line 165), the capture result (line 169), the LLM attempt oracle,
and the clock sampled at the gate (line 199). -/
structure QInput where
  tNow : ℚ
  capOk : Bool
  llm : ℕ → LlmAttempt
  tGate : ℚ

/-- Observable events of one loop iteration. -/
inductive QEvent where
  | captureFailLog (n : ℕ)
  | connFailLog (n : ℕ)
  | telegramSend
  | tsUpdate
deriving DecidableEq

/-- Control-flow exits of the loop: the 24 h restart (line 167), the camera
rescan `return main()` (line 176), and the connectivity restart (line 189). -/
inductive QExit where
  | restart24
  | rescan
  | restartConn
deriving DecidableEq

/-- One iteration of the `while True` loop of qwen3.py `main`
(lines 163-205), in statement order: 24 h restart check, capture with the
source-acquisition counter, LLM analysis with the connectivity counter,
risk extraction, alert gate, Telegram dispatch and only then the timestamp
update. -/
def qwen3Cycle (threshold interval : ℚ) (maxRetries : ℕ)
    (st : QState) (inp : QInput) : QState × List QEvent × Option QExit :=
  if 86400 ≤ inp.tNow - st.startTime then (st, [], Option.some QExit.restart24)
  else if inp.capOk = false then
    let f := st.failCount + 1
    if 10 ≤ f then (st, [QEvent.captureFailLog f], Option.some QExit.rescan)
    else ({st with failCount := f}, [QEvent.captureFailLog f], Option.none)
  else
    let st1 := {st with failCount := 0}
    match (analizar_imagen inp.llm maxRetries).1 with
    | Option.none =>
        let n := st1.internetFailures + 1
        if 20 ≤ n then (st1, [QEvent.connFailLog n], Option.some QExit.restartConn)
        else ({st1 with internetFailures := n}, [QEvent.connFailLog n], Option.none)
    | Option.some texto =>
        let riesgo := extraer_riesgo texto
        let st2 := {st1 with internetFailures := 0}
        if alertGate riesgo threshold inp.tGate st2.ultimoEnvioTs interval then
          ({st2 with ultimoEnvioTs := inp.tGate},
           [QEvent.telegramSend, QEvent.tsUpdate], Option.none)
        else (st2, [], Option.none)

/-- Run the loop over a list of per-cycle inputs, stopping at the first
control-flow exit. -/
def qwen3Run (threshold interval : ℚ) (maxRetries : ℕ) :
    QState → List QInput → QState × List QEvent × Option QExit
  | st, [] => (st, [], Option.none)
  | st, inp :: rest =>
      match qwen3Cycle threshold interval maxRetries st inp with
      | (st1, evs, Option.some ex) => (st1, evs, Option.some ex)
      | (st1, evs, Option.none) =>
          let r := qwen3Run threshold interval maxRetries st1 rest
          (r.1, evs ++ r.2.1, r.2.2)

/-- The ordering property claimed by the spec for a triggered cycle: the
timestamp update occurs strictly before the Telegram dispatch. -/
def updatedBeforeDispatch (evs : List QEvent) : Prop :=
  ∃ i j, i < j ∧ evs.get? i = Option.some QEvent.tsUpdate ∧
    evs.get? j = Option.some QEvent.telegramSend

/- =====================  Shared concrete inputs  ===================== -/

/-- A response payload whose `choices[0].message.content` extraction
succeeds; the content string itself is irrelevant because `json.loads` is
an oracle. -/
def sampleData : PyVal :=
  PyVal.dict [("choices", PyVal.arr
    [PyVal.dict [("message", PyVal.dict [("content", PyVal.str "analyzer output")])]])]

/-- A well-formed HTTP 200 response body carrying `sampleData`. -/
def sampleBody : RespBody := ⟨Option.some sampleData, "application/json", "raw"⟩

/-- A cycle input whose camera read fails. -/
def badCapInput : QInput := ⟨100, false, fun _ => LlmAttempt.resp 400 "x", 100⟩

/-- A cycle input with a good camera read and a successful low-risk analysis. -/
def goodCapInput : QInput := ⟨100, true, fun _ => LlmAttempt.resp 200 "RISK=0.0", 100⟩

/- =====================  Helper lemmas  ===================== -/

theorem digitVal_le_nine {c : Char} (h : isDigitC c = true) : digitVal c ≤ 9 := by
  simp only [isDigitC, Bool.and_eq_true, decide_eq_true_eq] at h
  unfold digitVal
  omega

theorem foldl_digits_lt (ds : List Char) :
    ∀ acc : ℕ, (∀ c ∈ ds, isDigitC c = true) →
      List.foldl (fun a c => 10 * a + digitVal c) acc ds < (acc + 1) * 10 ^ ds.length := by
  induction ds with
  | nil => intro acc h; simp
  | cons c tl ih =>
      intro acc h
      have hc : digitVal c ≤ 9 := digitVal_le_nine (h c (by simp))
      have htl := ih (10 * acc + digitVal c) (fun x hx => h x (by simp [hx]))
      have hstep : (10 * acc + digitVal c + 1) * 10 ^ tl.length ≤ (acc + 1) * 10 ^ (tl.length + 1) := by
        have h1 : 10 * acc + digitVal c + 1 ≤ (acc + 1) * 10 := by omega
        calc (10 * acc + digitVal c + 1) * 10 ^ tl.length
            ≤ ((acc + 1) * 10) * 10 ^ tl.length := Nat.mul_le_mul_right _ h1
          _ = (acc + 1) * 10 ^ (tl.length + 1) := by ring
      simpa [List.length_cons] using lt_of_lt_of_le htl hstep

theorem digitsToNat_lt (ds : List Char) (h : ∀ c ∈ ds, isDigitC c = true) :
    digitsToNat ds < 10 ^ ds.length := by
  simpa [digitsToNat] using foldl_digits_lt ds 0 h

theorem digitsToNat_zeros (zs : List Char) (h : ∀ c ∈ zs, c = '0') :
    digitsToNat zs = 0 := by
  induction zs with
  | nil => rfl
  | cons c tl ih =>
      have hc := h c (by simp)
      subst hc
      have : digitsToNat ('0' :: tl) = digitsToNat tl := by
        simp [digitsToNat, digitVal]
      rw [this]
      exact ih fun x hx => h x (by simp [hx])

theorem parseDecQ_zero_frac (ds : List Char) (hall : ds.all isDigitC = true)
    (hne : ds.isEmpty = false) :
    parseDecQ ('0' :: '.' :: ds) =
      Option.some ((digitsToNat ds : ℚ) / ((10 ^ ds.length : ℕ) : ℚ)) := by
  have h1 : isDigitC '0' = true := by decide
  have h2 : isDigitC '.' = false := by decide
  simp [parseDecQ, List.takeWhile, List.dropWhile, h1, h2, hall, hne, digitsToNat, digitVal]

theorem parseDecQ_one_frac (zs : List Char) (hall : zs.all isDigitC = true)
    (hne : zs.isEmpty = false) :
    parseDecQ ('1' :: '.' :: zs) =
      Option.some (1 + (digitsToNat zs : ℚ) / ((10 ^ zs.length : ℕ) : ℚ)) := by
  have h1 : isDigitC '1' = true := by decide
  have h2 : isDigitC '.' = false := by decide
  simp [parseDecQ, List.takeWhile, List.dropWhile, h1, h2, hall, hne, digitsToNat, digitVal]

theorem matchNum_range {cs cap : List Char} (h : matchNum cs = Option.some cap) :
    ∃ v : ℚ, parseDecQ cap = Option.some v ∧ 0 ≤ v ∧ v ≤ 1 := by
  match cs with
  | [] => simp [matchNum] at h
  | c :: rest =>
      rw [matchNum.eq_def] at h
      simp only [] at h
      by_cases h0 : c = '0'
      · rw [if_pos h0] at h
        by_cases hd : rest.head? = Option.some '.'
        · rw [if_pos hd] at h
          set ds := rest.tail.takeWhile isDigitC with hds
          by_cases hemp : ds.isEmpty
          · rw [if_pos hemp] at h
            simp at h
            exact ⟨0, by rw [← h]; decide, by norm_num, by norm_num⟩
          · rw [if_neg hemp] at h
            simp at h
            have hall : ds.all isDigitC = true :=
              List.all_eq_true.2 fun x hx => List.mem_takeWhile_imp hx
            have hne : ds.isEmpty = false := by
              cases hv : ds.isEmpty
              · rfl
              · exact absurd hv hemp
            refine ⟨(digitsToNat ds : ℚ) / ((10 ^ ds.length : ℕ) : ℚ), ?_, ?_, ?_⟩
            · rw [← h]; exact parseDecQ_zero_frac ds hall hne
            · positivity
            · have hlt : digitsToNat ds < 10 ^ ds.length :=
                digitsToNat_lt ds fun x hx => by
                  simpa using List.all_eq_true.1 hall x hx
              have hlt' : (digitsToNat ds : ℚ) < ((10 ^ ds.length : ℕ) : ℚ) := by
                exact_mod_cast hlt
              have hpos : (0 : ℚ) < ((10 ^ ds.length : ℕ) : ℚ) := by
                exact_mod_cast pow_pos (by norm_num : (0 : ℕ) < 10) ds.length
              have := (div_lt_one hpos).2 hlt'
              linarith
        · rw [if_neg hd] at h
          simp at h
          exact ⟨0, by rw [← h]; decide, by norm_num, by norm_num⟩
      · rw [if_neg h0] at h
        by_cases h1 : c = '1'
        · rw [if_pos h1] at h
          by_cases hd : rest.head? = Option.some '.'
          · rw [if_pos hd] at h
            set zs := rest.tail.takeWhile (fun c => c = '0') with hzs
            by_cases hemp : zs.isEmpty
            · rw [if_pos hemp] at h
              simp at h
              exact ⟨1, by rw [← h]; decide, by norm_num, by norm_num⟩
            · rw [if_neg hemp] at h
              simp at h
              have hzero : ∀ x ∈ zs, x = '0' := by
                intro x hx
                have := List.mem_takeWhile_imp hx
                simpa using this
              have hall : zs.all isDigitC = true :=
                List.all_eq_true.2 fun x hx => by
                  rw [hzero x hx]; decide
              have hne : zs.isEmpty = false := by
                cases hv : zs.isEmpty
                · rfl
                · exact absurd hv hemp
              refine ⟨1, ?_, by norm_num, by norm_num⟩
              rw [← h, parseDecQ_one_frac zs hall hne, digitsToNat_zeros zs hzero]
              norm_num
          · rw [if_neg hd] at h
            simp at h
            exact ⟨1, by rw [← h]; decide, by norm_num, by norm_num⟩
        · rw [if_neg h1] at h
          simp at h

theorem matchRiskAt_matchNum {cs cap : List Char} (h : matchRiskAt cs = Option.some cap) :
    ∃ ds, matchNum ds = Option.some cap := by
  unfold matchRiskAt at h
  split at h
  · split at h
    · split at h
      · exact ⟨_, h⟩
      · exact absurd h (by simp)
    · exact absurd h (by simp)
  · exact absurd h (by simp)

theorem riskSearch_matchRiskAt {cs cap : List Char} (h : riskSearch cs = Option.some cap) :
    ∃ tl, matchRiskAt tl = Option.some cap := by
  induction cs with
  | nil => simp [riskSearch] at h
  | cons c tl ih =>
      rw [riskSearch] at h
      cases hm : matchRiskAt (c :: tl) with
      | none => rw [hm] at h; exact ih h
      | some cap2 =>
          rw [hm] at h
          simp at h
          exact ⟨c :: tl, by rw [hm, h]⟩

theorem riskSearch_known {t : String} {cap : List Char}
    (h : riskSearch t.data = Option.some cap) :
    ∃ v : ℚ, parseDecQ cap = Option.some v ∧ 0 ≤ v ∧ v ≤ 1 ∧
      extraer_riesgo t = Option.some v := by
  obtain ⟨tl, htl⟩ := riskSearch_matchRiskAt h
  obtain ⟨ds, hds⟩ := matchRiskAt_matchNum htl
  obtain ⟨v, hv, h0, h1⟩ := matchNum_range hds
  refine ⟨v, hv, h0, h1, ?_⟩
  have hne : ¬ t = "" := by
    intro he
    subst he
    rw [show ("" : String).data = [] from rfl] at h
    simp [riskSearch] at h
  simp [extraer_riesgo, hne, h, hv, h0, h1]

/- =====================  Claim C3  ===================== -/

/-- Claim C3 (corrected): the extractor returns `Known(v)` for the value
captured by the first (leftmost) match of the case-insensitive marker
pattern, and `Unknown` only when the pattern matches nowhere (or the text is
falsy); every match yields a `Known` value.  Contrary to the original claim,
`"RISK=1.5"` is partially matched as `RISK=1` and yields `Known(1.0)`, not
`Unknown`; `"...RISK=0.62"` yields `Known(0.62)` as claimed. -/
theorem claim3_theorem :
    extraer_riesgo "hay riesgo RISK=0.62 detectado" = Option.some (62 / 100) ∧
    extraer_riesgo "RISK=1.5" = Option.some 1 ∧
    extraer_riesgo "sin marcador" = Option.none ∧
    extraer_riesgo "" = Option.none ∧
    extraer_riesgo "risk = 0.3" = Option.some (3 / 10) ∧
    ∀ (t : String) (cap : List Char), riskSearch t.data = Option.some cap →
      ∃ v : ℚ, extraer_riesgo t = Option.some v := by
  refine ⟨by with_unfolding_all decide, by with_unfolding_all decide,
    by with_unfolding_all decide, by with_unfolding_all decide,
    by with_unfolding_all decide, ?_⟩
  intro t cap h
  obtain ⟨v, _, _, _, hv⟩ := riskSearch_known h
  exact ⟨v, hv⟩

/-- Claim C3 witness: the marker-match clause applied at a concrete input. -/
theorem claim3_witness :
    ∃ v : ℚ, extraer_riesgo "RISK=0.7" = Option.some v :=
  claim3_theorem.2.2.2.2.2 "RISK=0.7" ['0', '.', '7'] (by decide)

/-- Claim C3 counterexample: the original claim says `"RISK=1.5"` yields
`Unknown`; the code yields `Known(1.0)` because the regex matches the
prefix `RISK=1`. -/
theorem claim3_counterexample :
    extraer_riesgo "RISK=1.5" = Option.some 1 ∧
    extraer_riesgo "RISK=1.5" ≠ Option.none := by
  exact ⟨by with_unfolding_all decide, by with_unfolding_all decide⟩

/- =====================  Claim C10  ===================== -/

/-- Claim C10 (confirmed): whenever the risk-marker regex matches, the
captured numeral is by construction of the pattern already in `[0,1]`, so
the out-of-range rejection branch and the `ValueError` branch of
`extraer_riesgo` are unreachable: every match yields `Known(v)` with
`0 ≤ v ≤ 1`. -/
theorem claim10_theorem :
    ∀ (t : String) (cap : List Char), riskSearch t.data = Option.some cap →
      ∃ v : ℚ, parseDecQ cap = Option.some v ∧ 0 ≤ v ∧ v ≤ 1 ∧
        extraer_riesgo t = Option.some v :=
  fun _ _ h => riskSearch_known h

/-- Claim C10 witness: the theorem applied at a concrete matching input. -/
theorem claim10_witness :
    ∃ v : ℚ, parseDecQ ['0', '.', '2', '5'] = Option.some v ∧ 0 ≤ v ∧ v ≤ 1 ∧
      extraer_riesgo "RISK=0.25" = Option.some v :=
  claim10_theorem "RISK=0.25" ['0', '.', '2', '5'] (by decide)

/- =====================  Claim C4  ===================== -/

/-- Claim C4 (confirmed): an alert is triggered in a cycle iff the risk is
`Known(v)` with `v ≥ threshold` and at least `min_interval` has elapsed
since the last alert; `Unknown` never triggers.  The three-cycle scenario
(threshold 1/2, interval 60 s, high risk at `T`, `T+10`, `T+61` for an
arbitrary epoch `T = 10^6`) triggers, suppresses, triggers. -/
theorem claim4_theorem :
    (∀ (r : Option ℚ) (threshold now last interval : ℚ),
       alertGate r threshold now last interval = true ↔
         ∃ v, r = Option.some v ∧ threshold ≤ v ∧ interval ≤ now - last) ∧
    (∀ threshold now last interval : ℚ,
       alertGate Option.none threshold now last interval = false) ∧
    (qwen3Run (1 / 2) 60 3 ⟨0, 0, 0, 1000000⟩
       [⟨1000000, true, fun _ => LlmAttempt.resp 200 "RISK=0.9", 1000000⟩,
        ⟨1000010, true, fun _ => LlmAttempt.resp 200 "RISK=0.9", 1000010⟩,
        ⟨1000061, true, fun _ => LlmAttempt.resp 200 "RISK=0.9", 1000061⟩]).2.1
      = [QEvent.telegramSend, QEvent.tsUpdate, QEvent.telegramSend, QEvent.tsUpdate] ∧
    (qwen3Run (1 / 2) 60 3 ⟨0, 0, 0, 1000000⟩
       [⟨1000000, true, fun _ => LlmAttempt.resp 200 "RISK=0.9", 1000000⟩,
        ⟨1000010, true, fun _ => LlmAttempt.resp 200 "RISK=0.9", 1000010⟩,
        ⟨1000061, true, fun _ => LlmAttempt.resp 200 "RISK=0.9", 1000061⟩]).1.ultimoEnvioTs
      = 1000061 := by
  refine ⟨?_, fun _ _ _ _ => rfl, by with_unfolding_all rfl, by with_unfolding_all rfl⟩
  intro r threshold now last interval
  cases r with
  | none => simp [alertGate]
  | some v => simp [alertGate]

/-- Claim C4 witness: the gate characterization applied at a concrete
triggering input. -/
theorem claim4_witness :
    alertGate (Option.some (9 / 10)) (1 / 2) 61 0 60 = true :=
  (claim4_theorem.1 (Option.some (9 / 10)) (1 / 2) 61 0 60).2
    ⟨9 / 10, rfl, by norm_num, by norm_num⟩

/- =====================  Claim C5  ===================== -/

/-- Claim C5 counterexample: in a triggered cycle the event trace is
`[telegramSend, tsUpdate]` — the dispatch call strictly precedes the
timestamp update, refuting the claim that `last_alert_timestamp` is updated
before dispatch begins. -/
theorem claim5_counterexample :
    (qwen3Cycle (1 / 2) 60 3 ⟨0, 0, 0, 0⟩
        ⟨100, true, fun _ => LlmAttempt.resp 200 "RISK=0.9", 100⟩).2.1
      = [QEvent.telegramSend, QEvent.tsUpdate] ∧
    ¬ updatedBeforeDispatch [QEvent.telegramSend, QEvent.tsUpdate] := by
  refine ⟨by with_unfolding_all rfl, ?_⟩
  rintro ⟨i, j, hij, hi, hj⟩
  have hi1 : i = 1 := by
    match i with
    | 0 => simp [List.get?] at hi
    | 1 => rfl
    | n + 2 => simp [List.get?] at hi
  have hj0 : j = 0 := by
    match j with
    | 0 => rfl
    | 1 => simp [List.get?] at hj
    | n + 2 => simp [List.get?] at hj
  omega

/-- Claim C5 (corrected): in every triggered cycle the Telegram dispatch is
issued first and `ultimo_envio_ts` is assigned afterwards, set to the time
sampled at the gate (before dispatch began); the loop is sequential, so no
second evaluation can happen while dispatch is in flight. -/
theorem claim5_theorem :
    ∀ (threshold interval : ℚ) (mr : ℕ) (st : QState) (inp : QInput) (texto : String),
      ¬ 86400 ≤ inp.tNow - st.startTime →
      inp.capOk = true →
      (analizar_imagen inp.llm mr).1 = Option.some texto →
      alertGate (extraer_riesgo texto) threshold inp.tGate st.ultimoEnvioTs interval = true →
      qwen3Cycle threshold interval mr st inp =
        ({st with failCount := 0, internetFailures := 0, ultimoEnvioTs := inp.tGate},
         [QEvent.telegramSend, QEvent.tsUpdate], Option.none) := by
  intro threshold interval mr st inp texto h24 hcap hllm hgate
  simp [qwen3Cycle, h24, hcap, hllm, hgate]

/-- Claim C5 witness: the corrected cycle equation at a concrete
triggering input. -/
theorem claim5_witness :
    qwen3Cycle (1 / 2) 60 3 ⟨3, 7, 0, 0⟩
        ⟨100, true, fun _ => LlmAttempt.resp 200 "RISK=0.9", 100⟩ =
      (⟨0, 0, 100, 0⟩, [QEvent.telegramSend, QEvent.tsUpdate], Option.none) :=
  claim5_theorem (1 / 2) 60 3 ⟨3, 7, 0, 0⟩
    ⟨100, true, fun _ => LlmAttempt.resp 200 "RISK=0.9", 100⟩ "RISK=0.9"
    (by norm_num) rfl (by with_unfolding_all rfl) (by with_unfolding_all rfl)

/- =====================  Claim C9  ===================== -/

/-- Claim C9 counterexample: a cycle whose three LLM attempts all fail with
HTTP 400 (network fully reachable, errors handled by the retry loop) still
increments the connectivity counter from 0 to 1, refuting the claim that
only pure network unreachability is counted. -/
theorem claim9_counterexample :
    (qwen3Cycle (4 / 5) 5 3 ⟨0, 0, 0, 0⟩
        ⟨100, true, fun _ => LlmAttempt.resp 400 "Bad Request", 100⟩).1.internetFailures = 1 ∧
    (1 : ℕ) ≠ 0 := by
  exact ⟨by with_unfolding_all rfl, by decide⟩

/-- Claim C9 (corrected): the supervisor keeps two independent
consecutive-failure counters, each reset to zero by the next success;
10 consecutive capture failures trigger a camera rescan (not a process
restart) exactly once, and 20 consecutive analysis failures trigger a
process restart — but the connectivity counter counts every cycle in which
`analizar_imagen` returns no text, i.e. every cycle whose `MAX_RETRIES`
attempts all failed for any reason (timeout, connection error, or non-200
HTTP status), not only pure network unreachability. -/
theorem claim9_theorem :
    (∀ (threshold interval : ℚ) (mr : ℕ) (st : QState) (inp : QInput) (texto : String),
       ¬ 86400 ≤ inp.tNow - st.startTime → inp.capOk = true →
       (analizar_imagen inp.llm mr).1 = Option.some texto →
       (qwen3Cycle threshold interval mr st inp).1.failCount = 0 ∧
       (qwen3Cycle threshold interval mr st inp).1.internetFailures = 0) ∧
    (∀ (threshold interval : ℚ) (mr : ℕ) (st : QState) (inp : QInput),
       ¬ 86400 ≤ inp.tNow - st.startTime → inp.capOk = false → st.failCount = 9 →
       (qwen3Cycle threshold interval mr st inp).2.2 = Option.some QExit.rescan) ∧
    (∀ (threshold interval : ℚ) (mr : ℕ) (st : QState) (inp : QInput),
       ¬ 86400 ≤ inp.tNow - st.startTime → inp.capOk = false → st.failCount + 1 < 10 →
       (qwen3Cycle threshold interval mr st inp).1.failCount = st.failCount + 1 ∧
       (qwen3Cycle threshold interval mr st inp).2.2 = Option.none) ∧
    (∀ (threshold interval : ℚ) (mr : ℕ) (st : QState) (inp : QInput),
       ¬ 86400 ≤ inp.tNow - st.startTime → inp.capOk = true →
       (analizar_imagen inp.llm mr).1 = Option.none → st.internetFailures = 19 →
       (qwen3Cycle threshold interval mr st inp).2.2 = Option.some QExit.restartConn) ∧
    (∀ (threshold interval : ℚ) (mr : ℕ) (st : QState) (inp : QInput),
       ¬ 86400 ≤ inp.tNow - st.startTime → inp.capOk = true →
       (analizar_imagen inp.llm mr).1 = Option.none → st.internetFailures + 1 < 20 →
       (qwen3Cycle threshold interval mr st inp).1.internetFailures = st.internetFailures + 1 ∧
       (qwen3Cycle threshold interval mr st inp).2.2 = Option.none) ∧
    (qwen3Run (4 / 5) 5 3 ⟨0, 0, 0, 0⟩ (List.replicate 10 badCapInput)).2.2
      = Option.some QExit.rescan ∧
    (qwen3Run (4 / 5) 5 3 ⟨0, 0, 0, 0⟩
        (List.replicate 9 badCapInput ++ [goodCapInput])).2.2 = Option.none ∧
    (qwen3Run (4 / 5) 5 3 ⟨0, 0, 0, 0⟩
        (List.replicate 9 badCapInput ++ [goodCapInput])).1.failCount = 0 := by
  refine ⟨?_, ?_, ?_, ?_, ?_, by with_unfolding_all rfl, by with_unfolding_all rfl,
    by with_unfolding_all rfl⟩
  · intro threshold interval mr st inp texto h24 hcap hllm
    simp only [qwen3Cycle, if_neg h24, hcap]
    simp [hllm]
    split <;> simp
  · intro threshold interval mr st inp h24 hcap hfc
    simp [qwen3Cycle, if_neg h24, hcap, hfc]
  · intro threshold interval mr st inp h24 hcap hfc
    have h10 : ¬ 10 ≤ st.failCount + 1 := by omega
    simp [qwen3Cycle, if_neg h24, hcap, h10]
  · intro threshold interval mr st inp h24 hcap hllm hif
    simp [qwen3Cycle, if_neg h24, hcap, hllm, hif]
  · intro threshold interval mr st inp h24 hcap hllm hif
    have h20 : ¬ 20 ≤ st.internetFailures + 1 := by omega
    simp [qwen3Cycle, if_neg h24, hcap, hllm, h20]

/-- Claim C9 witness: the reset and threshold clauses applied at concrete
inputs. -/
theorem claim9_witness :
    ((qwen3Cycle (4 / 5) 5 3 ⟨4, 6, 0, 0⟩ goodCapInput).1.failCount = 0 ∧
     (qwen3Cycle (4 / 5) 5 3 ⟨4, 6, 0, 0⟩ goodCapInput).1.internetFailures = 0) ∧
    (qwen3Cycle (4 / 5) 5 3 ⟨9, 0, 0, 0⟩ badCapInput).2.2 = Option.some QExit.rescan := by
  constructor
  · exact claim9_theorem.1 (4 / 5) 5 3 ⟨4, 6, 0, 0⟩ goodCapInput "RISK=0.0"
      (by norm_num [goodCapInput]) rfl (by with_unfolding_all rfl)
  · exact claim9_theorem.2.1 (4 / 5) 5 3 ⟨9, 0, 0, 0⟩ badCapInput
      (by norm_num [badCapInput]) rfl rfl

/- =====================  Claim C6  ===================== -/

/-- Claim C6 counterexample: qwen3.py `analizar_imagen` does not abort on a
non-transient 4xx response — with every attempt answering HTTP 400 it issues
all 3 requests instead of the 1 the claim requires. -/
theorem claim6_counterexample :
    analizar_imagen (fun _ => LlmAttempt.resp 400 "Bad Request") 3 = (Option.none, 3) ∧
    (3 : ℕ) ≠ 1 := by
  exact ⟨by decide, by decide⟩

/-- Claim C6 (corrected): consumer.py `with_retries` retries only transient
failures (timeouts, or request exceptions carrying status 429/5xx) up to
`max_attempts` (default 3) and re-raises any non-transient failure
immediately after a single call; for N-1 retriable failures followed by a
success on attempt N ≤ 3 it issues exactly N requests.  qwen3.py
`analizar_imagen`, by contrast, retries every failure — including
non-transient 4xx responses — with a fixed delay, issuing exactly N
requests when the first N-1 attempts fail and attempt N returns HTTP 200,
and `MAX_RETRIES` requests (returning no text) when all attempts fail. -/
theorem claim6_theorem :
    (∀ (oracle : ℕ → ReqOutcome) (rnd : ℕ → ℚ) (isT : Bool) (s : Option ℕ) (msg : String),
       oracle 1 = ReqOutcome.exc isT s msg → retriable isT s = false →
       with_retries oracle rnd 3 1 30 = (RetryRes.raised isT s msg, 1, [])) ∧
    (∀ (oracle : ℕ → ReqOutcome) (rnd : ℕ → ℚ) (N st : ℕ) (body : RespBody),
       1 ≤ N → N ≤ 3 →
       (∀ k, 1 ≤ k → k < N →
          ∃ isT s msg, oracle k = ReqOutcome.exc isT s msg ∧ retriable isT s = true) →
       oracle N = ReqOutcome.resp st body →
       (with_retries oracle rnd 3 1 30).1 = RetryRes.ok st body ∧
       (with_retries oracle rnd 3 1 30).2.1 = N) ∧
    (∀ (oracle : ℕ → LlmAttempt) (N : ℕ) (content : String),
       1 ≤ N → N ≤ 3 →
       (∀ k, 1 ≤ k → k < N → llmFails (oracle k) = true) →
       oracle N = LlmAttempt.resp 200 content →
       analizar_imagen oracle 3 = (Option.some content, N)) ∧
    (∀ content : String,
       analizar_imagen (fun _ => LlmAttempt.resp 400 content) 3 = (Option.none, 3)) := by
  refine ⟨?_, ?_, ?_, ?_⟩
  · intro oracle rnd isT s msg h1 hr
    simp [with_retries, with_retries_go, h1, hr]
  · intro oracle rnd N st body hN1 hN3 hfail hok
    interval_cases N
    · simp [with_retries, with_retries_go, hok]
    · obtain ⟨i1, s1, m1, ho1, hr1⟩ := hfail 1 (by norm_num) (by norm_num)
      simp [with_retries, with_retries_go, ho1, hr1, hok]
    · obtain ⟨i1, s1, m1, ho1, hr1⟩ := hfail 1 (by norm_num) (by norm_num)
      obtain ⟨i2, s2, m2, ho2, hr2⟩ := hfail 2 (by norm_num) (by norm_num)
      simp [with_retries, with_retries_go, ho1, hr1, ho2, hr2, hok]
  · intro oracle N content hN1 hN3 hfail hok
    interval_cases N
    · simp [analizar_imagen, analizar_imagen_go, hok]
    · have h1 := hfail 1 (by norm_num) (by norm_num)
      cases ho1 : oracle 1 with
      | exc m => simp [analizar_imagen, analizar_imagen_go, ho1, hok]
      | resp st c =>
          rw [ho1] at h1
          have hst : ¬ st = 200 := by
            intro he; subst he; simp [llmFails] at h1
          simp [analizar_imagen, analizar_imagen_go, ho1, hst, hok]
    · have h1 := hfail 1 (by norm_num) (by norm_num)
      have h2 := hfail 2 (by norm_num) (by norm_num)
      cases ho1 : oracle 1 with
      | exc m =>
          cases ho2 : oracle 2 with
          | exc m2 => simp [analizar_imagen, analizar_imagen_go, ho1, ho2, hok]
          | resp st2 c2 =>
              rw [ho2] at h2
              have hst2 : ¬ st2 = 200 := by
                intro he; subst he; simp [llmFails] at h2
              simp [analizar_imagen, analizar_imagen_go, ho1, ho2, hst2, hok]
      | resp st c =>
          rw [ho1] at h1
          have hst : ¬ st = 200 := by
            intro he; subst he; simp [llmFails] at h1
          cases ho2 : oracle 2 with
          | exc m2 => simp [analizar_imagen, analizar_imagen_go, ho1, hst, ho2, hok]
          | resp st2 c2 =>
              rw [ho2] at h2
              have hst2 : ¬ st2 = 200 := by
                intro he; subst he; simp [llmFails] at h2
              simp [analizar_imagen, analizar_imagen_go, ho1, hst, ho2, hst2, hok]
  · intro content
    simp [analizar_imagen, analizar_imagen_go]

/-- Claim C6 witness: the exactly-N clause at N = 2 with a concrete oracle,
and the immediate-abort clause on a 404-carrying request exception. -/
theorem claim6_witness :
    ((with_retries
        (fun k => if k = 1 then ReqOutcome.exc true Option.none "timeout"
                  else ReqOutcome.resp 200 sampleBody) (fun _ => 0) 3 1 30).1
       = RetryRes.ok 200 sampleBody ∧
     (with_retries
        (fun k => if k = 1 then ReqOutcome.exc true Option.none "timeout"
                  else ReqOutcome.resp 200 sampleBody) (fun _ => 0) 3 1 30).2.1 = 2) ∧
    with_retries (fun _ => ReqOutcome.exc false (Option.some 404) "not found")
        (fun _ => 0) 3 1 30
      = (RetryRes.raised false (Option.some 404) "not found", 1, []) := by
  constructor
  · exact claim6_theorem.2.1 _ _ 2 200 sampleBody (by norm_num) (by norm_num)
      (fun k hk1 hk2 => ⟨true, Option.none, "timeout",
        by have : k = 1 := by omega
           subst this; rfl, rfl⟩)
      rfl
  · exact claim6_theorem.1 _ _ false (Option.some 404) "not found" rfl rfl

/- =====================  Claim C7  ===================== -/

/-- Claim C7 (confirmed): for every retried attempt k the pre-jitter delay
is `min(max_delay, base * 2^(k-1))` with the base doubled (inside the
clamp) for HTTP 429; the final sleep multiplies this by `0.5 + random()`,
a factor in `[0.5, 1.5)`; and whenever the clamp is not binding the 429
delay is exactly double the 500 delay at the same attempt. -/
theorem claim7_theorem :
    ∀ (k : ℕ) (base maxd r : ℚ),
      preJitterDelay (Option.some 500) k base maxd = min maxd (base * 2 ^ (k - 1)) ∧
      preJitterDelay Option.none k base maxd = min maxd (base * 2 ^ (k - 1)) ∧
      preJitterDelay (Option.some 429) k base maxd = min maxd (base * 2 ^ (k - 1) * 2) ∧
      backoffSleep (Option.some 429) k base maxd r =
        preJitterDelay (Option.some 429) k base maxd * (1 / 2 + r) ∧
      (0 ≤ r → r < 1 → 1 / 2 ≤ 1 / 2 + r ∧ 1 / 2 + r < 3 / 2) ∧
      (0 ≤ base → base * 2 ^ (k - 1) * 2 ≤ maxd →
        preJitterDelay (Option.some 429) k base maxd =
          2 * preJitterDelay (Option.some 500) k base maxd) := by
  intro k base maxd r
  refine ⟨by simp [preJitterDelay], by simp [preJitterDelay], by simp [preJitterDelay],
    rfl, fun h0 h1 => ⟨by linarith, by linarith⟩, ?_⟩
  intro hb hm
  have hbase : 0 ≤ base * 2 ^ (k - 1) := by positivity
  rw [preJitterDelay, preJitterDelay,
    if_pos (rfl : (Option.some 429 : Option ℕ) = Option.some 429),
    if_neg (by simp : ¬ (Option.some 500 : Option ℕ) = Option.some 429)]
  rw [min_eq_right hm, min_eq_right (by linarith)]
  ring

/-- Claim C7 witness: the doubling and jitter-bound clauses at attempt 2
with the default base and clamp. -/
theorem claim7_witness :
    preJitterDelay (Option.some 429) 2 1 30 = 2 * preJitterDelay (Option.some 500) 2 1 30 ∧
    (1 : ℚ) / 2 ≤ 1 / 2 + 1 / 4 ∧ (1 : ℚ) / 2 + 1 / 4 < 3 / 2 := by
  refine ⟨(claim7_theorem 2 1 30 (1 / 4)).2.2.2.2.2 (by norm_num) (by norm_num), ?_⟩
  exact (claim7_theorem 2 1 30 (1 / 4)).2.2.2.2.1 (by norm_num) (by norm_num)

/- =====================  Claim C8  ===================== -/

theorem send_telegram_count_ttsRequest (en : Bool) (o : ℕ → ReqOutcome) (r : ℕ → ℚ) :
    (send_telegram en o r).count ChEvent.ttsRequest = 0 := by
  unfold send_telegram
  cases en with
  | false => rfl
  | true =>
      cases hw : (with_retries o r 3 1 30).1 with
      | raised isT s msg => simp [hw, List.count_cons]
      | ok st body =>
          by_cases hst : st < 400
          · simp [hw, hst, List.count_cons]
          · simp [hw, hst, List.count_cons]

theorem speak_text_count_ttsRequest (o : ℕ → ReqOutcome) (r : ℕ → ℚ) (p : PlayOutcome) :
    (speak_text true o r p).count ChEvent.ttsRequest = 1 := by
  unfold speak_text
  cases hw : (with_retries o r 3 1 30).1 with
  | raised isT s msg => simp [hw, List.count_cons]
  | ok st body =>
      by_cases hst : 400 ≤ st
      · simp [hw, hst, List.count_cons]
      · by_cases hct : containsSub "audio".data body.ctype.data
        · cases p <;> simp [hw, hst, hct, List.count_cons, List.count_append]
        · cases p <;> simp [hw, hst, hct, List.count_cons, List.count_append]

/-- Claim C8 (confirmed): the alert dispatch of consumer.py is a fixed
sequence Telegram → speech → 10 s pause → speech; each channel catches its
own failures, so for every Telegram outcome — including a raised request
exception — both speech dispatches still occur (the trace contains exactly
two `ttsRequest` events), the Telegram request itself is always attempted
when enabled, and a raised Telegram exception surfaces as a logged
`tgError` event rather than an exception. -/
theorem claim8_theorem :
    ∀ (tgEn ttsEn : Bool) (tgO : ℕ → ReqOutcome) (tgR : ℕ → ℚ)
      (t1O : ℕ → ReqOutcome) (t1R : ℕ → ℚ) (p1 : PlayOutcome)
      (t2O : ℕ → ReqOutcome) (t2R : ℕ → ℚ) (p2 : PlayOutcome),
      alertFanout tgEn ttsEn tgO tgR t1O t1R p1 t2O t2R p2 =
        send_telegram tgEn tgO tgR ++ speak_text ttsEn t1O t1R p1 ++
          [ChEvent.sleep10] ++ speak_text ttsEn t2O t2R p2 ∧
      (ttsEn = true →
        (alertFanout tgEn ttsEn tgO tgR t1O t1R p1 t2O t2R p2).count ChEvent.ttsRequest = 2) ∧
      (tgEn = true →
        ChEvent.tgRequest ∈ alertFanout tgEn ttsEn tgO tgR t1O t1R p1 t2O t2R p2) ∧
      (∀ (isT : Bool) (s : Option ℕ) (msg : String), tgEn = true →
        (with_retries tgO tgR 3 1 30).1 = RetryRes.raised isT s msg →
        ChEvent.tgError msg ∈ alertFanout tgEn ttsEn tgO tgR t1O t1R p1 t2O t2R p2) := by
  intro tgEn ttsEn tgO tgR t1O t1R p1 t2O t2R p2
  refine ⟨rfl, ?_, ?_, ?_⟩
  · intro hts
    subst hts
    simp [alertFanout, List.count_append, send_telegram_count_ttsRequest,
      speak_text_count_ttsRequest]
  · intro htg
    subst htg
    have hmem : ChEvent.tgRequest ∈ send_telegram true tgO tgR := by
      unfold send_telegram
      simp
    simp [alertFanout, hmem]
  · intro isT s msg htg hw
    subst htg
    have hmem : ChEvent.tgError msg ∈ send_telegram true tgO tgR := by
      unfold send_telegram
      simp [hw]
    simp [alertFanout, hmem]

/-- Claim C8 witness: the two-speech-dispatch clause with a failing Telegram
channel, and the logged-error clause. -/
theorem claim8_witness :
    (alertFanout true true (fun _ => ReqOutcome.exc false Option.none "boom") (fun _ => 0)
       (fun _ => ReqOutcome.resp 200 sampleBody) (fun _ => 0) PlayOutcome.afplay
       (fun _ => ReqOutcome.resp 200 sampleBody) (fun _ => 0) PlayOutcome.afplay).count
      ChEvent.ttsRequest = 2 ∧
    ChEvent.tgError "boom" ∈
      alertFanout true true (fun _ => ReqOutcome.exc false Option.none "boom") (fun _ => 0)
        (fun _ => ReqOutcome.resp 200 sampleBody) (fun _ => 0) PlayOutcome.afplay
        (fun _ => ReqOutcome.resp 200 sampleBody) (fun _ => 0) PlayOutcome.afplay := by
  constructor
  · exact (claim8_theorem true true _ _ _ _ _ _ _ _).2.1 rfl
  · exact (claim8_theorem true true _ _ _ _ _ _ _ _).2.2.2 false Option.none "boom" rfl rfl

/- =====================  Claims C1 and C2  ===================== -/

theorem serverNormalize_range {p : PyVal} {res : ServerScoreResult}
    (h : serverNormalize p = Except.ok res) : 0 ≤ res.score ∧ res.score ≤ 1 := by
  cases p with
  | dict fs =>
      unfold serverNormalize at h
      dsimp only [] at h
      cases hf : pyFloat ((fs.lookup "score").getD (PyVal.num 0)) with
      | error e => rw [hf] at h; simp at h
      | ok s0 =>
          rw [hf] at h
          dsimp only [] at h
          simp only [Except.ok.injEq] at h
          subst h
          constructor
          · dsimp only
            split_ifs <;> linarith
          · dsimp only
            split_ifs <;> linarith
  | num q => simp [serverNormalize] at h
  | str s => simp [serverNormalize] at h
  | bool b => simp [serverNormalize] at h
  | none => simp [serverNormalize] at h
  | arr xs => simp [serverNormalize] at h

theorem openai_analyze_body_range {loads : List Char → Option PyVal}
    {outcome : ReqOutcome} {res : ServerScoreResult}
    (h : openai_analyze_body loads outcome = Except.ok res) :
    0 ≤ res.score ∧ res.score ≤ 1 := by
  unfold openai_analyze_body at h
  cases outcome with
  | exc isT s msg => simp at h
  | resp st body =>
      by_cases h200 : st = 200
      · subst h200
        simp only [if_neg (by norm_num : ¬ (200 : ℕ) ≠ 200)] at h
        cases hj : body.json with
        | none => rw [hj] at h; simp at h
        | some data =>
            rw [hj] at h
            simp only [] at h
            cases he : extractContent data with
            | error e =>
                rw [he] at h
                simp only [Except.ok.injEq] at h
                subst h
                exact ⟨le_refl 0, by norm_num⟩
            | ok cv =>
                rw [he] at h
                simp only [] at h
                cases cv with
                | str s =>
                    dsimp only [] at h
                    cases hl : loads s.data with
                    | some parsed =>
                        rw [hl] at h
                        exact serverNormalize_range h
                    | none =>
                        rw [hl] at h
                        cases hb : jsonBlock? s.data with
                        | none =>
                            rw [hb] at h
                            simp only [Except.ok.injEq] at h
                            subst h
                            exact ⟨le_refl 0, by norm_num⟩
                        | some blk =>
                            rw [hb] at h
                            dsimp only [] at h
                            cases hl2 : loads blk with
                            | some parsed =>
                                rw [hl2] at h
                                exact serverNormalize_range h
                            | none =>
                                rw [hl2] at h
                                simp only [Except.ok.injEq] at h
                                subst h
                                exact ⟨le_refl 0, by norm_num⟩
                | num q => simp at h
                | bool b => simp at h
                | none => simp at h
                | dict fs => simp at h
                | arr xs => simp at h
      · dsimp only [] at h
        rw [if_pos h200] at h
        simp only [Except.ok.injEq] at h
        subst h
        exact ⟨le_refl 0, by norm_num⟩

/-- Claim C1 counterexample: the original claim says both inference clients
always return a string `text`; server.py passes the parsed value through
unchanged, so a model response with a truthy non-string `text` (the number
123) is returned as-is, not as a string. -/
theorem claim1_counterexample :
    isStr (openai_analyze
        (fun _ => Option.some (PyVal.dict [("score", PyVal.num (1 / 2)), ("text", PyVal.num 123)]))
        (ReqOutcome.resp 200 sampleBody)).text = false ∧
    (openai_analyze
        (fun _ => Option.some (PyVal.dict [("score", PyVal.num (1 / 2)), ("text", PyVal.num 123)]))
        (ReqOutcome.resp 200 sampleBody)).text = PyVal.num 123 := by
  constructor
  · with_unfolding_all rfl
  · with_unfolding_all rfl

/-- Claim C1 (corrected): both inference clients are total — the catch-all
handlers turn every internal exception into a degraded result
`score 0, text "Error analizando: <diagnostic>"`; an empty window
short-circuits deterministically; and every non-exceptional body outcome is
returned unchanged.  consumer.py always yields a string `text` (it applies
`str()`), but server.py returns the parsed `text` value untyped, so its
`text` need not be a string. -/
theorem claim1_theorem :
    (∀ (loads : List Char → Option PyVal) (oracle : ℕ → ReqOutcome) (rnd : ℕ → ℚ)
       (nowIso : String) (events : List PyVal) (e : PyExc),
       consumer_analyze_body loads oracle rnd = Except.error e →
       events.isEmpty = false →
       analyze loads nowIso events oracle rnd = ⟨0, "Error analizando: " ++ e.msg⟩) ∧
    (∀ (loads : List Char → Option PyVal) (oracle : ℕ → ReqOutcome) (rnd : ℕ → ℚ)
       (nowIso : String) (events : List PyVal) (res : ScoreResult),
       consumer_analyze_body loads oracle rnd = Except.ok res →
       events.isEmpty = false →
       analyze loads nowIso events oracle rnd = res) ∧
    (∀ (loads : List Char → Option PyVal) (nowIso : String)
       (oracle : ℕ → ReqOutcome) (rnd : ℕ → ℚ),
       analyze loads nowIso [] oracle rnd = ⟨0, "Sin eventos recientes. " ++ nowIso⟩) ∧
    (∀ (loads : List Char → Option PyVal) (outcome : ReqOutcome) (e : PyExc),
       openai_analyze_body loads outcome = Except.error e →
       openai_analyze loads outcome = ⟨0, PyVal.str ("Error analizando: " ++ e.msg)⟩) ∧
    (∀ (loads : List Char → Option PyVal) (outcome : ReqOutcome) (res : ServerScoreResult),
       openai_analyze_body loads outcome = Except.ok res →
       openai_analyze loads outcome = res) := by
  refine ⟨?_, ?_, fun _ _ _ _ => rfl, ?_, ?_⟩
  · intro loads oracle rnd nowIso events e hb hev
    simp [analyze, hev, hb]
  · intro loads oracle rnd nowIso events res hb hev
    simp [analyze, hev, hb]
  · intro loads outcome e hb
    simp [openai_analyze, hb]
  · intro loads outcome res hb
    simp [openai_analyze, hb]

/-- Claim C1 witness: the consumer catch equation at a concrete
non-retriable failure. -/
theorem claim1_witness :
    analyze (fun _ => Option.none) "T" [PyVal.none]
        (fun _ => ReqOutcome.exc false (Option.some 404) "404 Client Error") (fun _ => 0)
      = ⟨0, "Error analizando: " ++ "404 Client Error"⟩ :=
  claim1_theorem.1 _ _ _ "T" [PyVal.none] ⟨"404 Client Error"⟩ rfl rfl

/-- Claim C2 counterexample: consumer.py `analyze` performs no clamping — a
parsed score of 5 is returned as 5, outside `[0,1]`. -/
theorem claim2_counterexample :
    (analyze (fun _ => Option.some (PyVal.dict [("score", PyVal.num 5), ("text", PyVal.str "ok")]))
        "T" [PyVal.none] (fun _ => ReqOutcome.resp 200 sampleBody) (fun _ => 0)).score = 5 ∧
    ¬ ((5 : ℚ) ≤ 1) := by
  exact ⟨rfl, by norm_num⟩

/-- Claim C2 (corrected): server.py clamps every returned score into
`[0,1]`, but consumer.py only coerces the parsed score to float and returns
it unclamped, whatever its magnitude. -/
theorem claim2_theorem :
    (∀ (loads : List Char → Option PyVal) (outcome : ReqOutcome),
       0 ≤ (openai_analyze loads outcome).score ∧ (openai_analyze loads outcome).score ≤ 1) ∧
    (∀ (q : ℚ) (nowIso : String),
       analyze (fun _ => Option.some (PyVal.dict [("score", PyVal.num q), ("text", PyVal.str "ok")]))
         nowIso [PyVal.none] (fun _ => ReqOutcome.resp 200 sampleBody) (fun _ => 0)
         = ⟨q, "ok"⟩) := by
  constructor
  · intro loads outcome
    cases hb : openai_analyze_body loads outcome with
    | error e =>
        have he : openai_analyze loads outcome = ⟨0, PyVal.str ("Error analizando: " ++ e.msg)⟩ := by
          simp [openai_analyze, hb]
        rw [he]
        exact ⟨le_refl 0, by norm_num⟩
    | ok res =>
        have he : openai_analyze loads outcome = res := by
          simp [openai_analyze, hb]
        rw [he]
        exact openai_analyze_body_range hb
  · intro q nowIso
    rfl
